import Mathlib

/-!
Verification development for the Dify2OpenAI middleware (src/server.js).

The file shallow-embeds the core of the proxy: the in-memory conversation
store, the request translator `convertOpenAIToDifyFormat`, the stream-event
translator `convertDifyToOpenAIStreamFormat`, the stream relay attached to
the backend response, and the `POST /v1/chat/completions` handler with the
backend HTTP call abstracted as a parameter.  JavaScript values that the
code reads as possibly-absent strings are modelled as `Option String`
(`none` = absent/undefined), and JS truthiness of such values (absent and
the empty string are falsy) is captured by `strTruthy`/`jsOrStr`.  Fields
of backend and client JSON payloads are typed as the protocols type them
(string-valued ids and contents).  Wall-clock fields (`created`) and the
final JSON serialization of emitted objects are outside the embedding.
-/

/-- The in-memory conversation store (server.js line 29, `conversationStore`,
a `Map` from conversation key to the backend conversation id), modelled as an
association list. -/
abbrev Store : Type := List (String × String)

/-- `conversationStore.get(key)`: `none` when the key is absent. -/
def Store.get (s : Store) (k : String) : Option String :=
  (List.find? (fun kv => kv.1 == k) s).map (fun kv => kv.2)

/-- `conversationStore.set(key, v)`: overwrite semantics of a JS `Map`. -/
def Store.set (s : Store) (k v : String) : Store :=
  (k, v) :: List.filter (fun kv => kv.1 != k) s

/-- JS truthiness of a possibly-absent string value: `undefined` and the
empty string are falsy, every other string is truthy. -/
def strTruthy : Option String → Bool
  | none => false
  | some s => s != ""

/-- JS `a || b` over possibly-absent string values: the value of `b` when
`a` is falsy (absent or empty), else the value of `a`. -/
def jsOrStr (a b : Option String) : Option String :=
  if strTruthy a then a else b

/-- A nested message wrapper (`msg.message`, `msg.delta`, and the
`message`/`delta` of a `choices[0]` entry): the candidate locations the
translator probes for content, ids and conversation ids. -/
structure SubMsg where
  content : Option String := none
  id : Option String := none
  message_id : Option String := none
  conversation_id : Option String := none
deriving Repr, DecidableEq

/-- One entry of a message's `choices` array. -/
structure MsgChoice where
  message : Option SubMsg := none
  delta : Option SubMsg := none
deriving Repr, DecidableEq

/-- One inbound chat message as the translator reads it: every probed field
is optional (`none` = the property is absent from the JS object). -/
structure Msg where
  role : Option String := none
  content : Option String := none
  message_id : Option String := none
  id : Option String := none
  message : Option SubMsg := none
  delta : Option SubMsg := none
  choices : Option (List MsgChoice) := none
  conversation_id : Option String := none
deriving Repr, DecidableEq

/-- Content extraction for a history entry (server.js lines 97-100):
`msg.content || msg.message?.content || msg.delta?.content || ''`. -/
def extractContent (m : Msg) : String :=
  (jsOrStr m.content
    (jsOrStr (m.message.bind SubMsg.content) (m.delta.bind SubMsg.content))).getD ""

/-- Message-id extraction (lines 102-105):
`msg.message_id || msg.id || msg.message?.id || msg.message?.message_id`. -/
def extractMessageId (m : Msg) : Option String :=
  jsOrStr m.message_id
    (jsOrStr m.id
      (jsOrStr (m.message.bind SubMsg.id) (m.message.bind SubMsg.message_id)))

/-- Conversation-id extraction from one message (lines 107-115): probed only
for assistant-role entries, across the flat field, `message`, `delta`,
`choices[0].message` and `choices[0].delta`; the empty string when nothing
truthy is found or the role is not assistant. -/
def extractMsgConversationId (m : Msg) : String :=
  if m.role == some "assistant" then
    (jsOrStr m.conversation_id
      (jsOrStr (m.message.bind SubMsg.conversation_id)
        (jsOrStr (m.delta.bind SubMsg.conversation_id)
          (jsOrStr (m.choices.bind (fun cs => cs.head?.bind (fun c => c.message.bind SubMsg.conversation_id)))
            (m.choices.bind (fun cs => cs.head?.bind (fun c => c.delta.bind SubMsg.conversation_id))))))).getD ""
  else ""

/-- One entry of the reconstructed `conversation_history` (lines 123-128):
`conversation_id` is included only when the message carried a truthy one. -/
structure HistoryEntry where
  role : Option String
  content : String
  message_id : Option String
  conversation_id : Option String
deriving Repr, DecidableEq

/-- The history entry pushed for one non-system message (lines 96-128). -/
def mkHistoryEntry (m : Msg) : HistoryEntry :=
  { role := m.role
    content := extractContent m
    message_id := extractMessageId m
    conversation_id := if extractMsgConversationId m != "" then
      some (extractMsgConversationId m) else none }

/-- The running `conversationId` of the loop over non-system messages
(lines 95-121): each assistant message carrying a truthy conversation id
overrides the value resolved so far.  The loop's other effect, building the
history, uses only per-message state and is modelled by `mkHistoryEntry`. -/
def foldConversationId (msgs : List Msg) (cid : String) : String :=
  match msgs with
  | [] => cid
  | m :: rest =>
      foldConversationId rest
        (if extractMsgConversationId m != "" then extractMsgConversationId m else cid)

/-- The stamping step (lines 142-147): when a non-empty conversation id was
resolved, every history entry lacking a truthy one is stamped with it. -/
def stampConversationId (cid : String) (e : HistoryEntry) : HistoryEntry :=
  { e with conversation_id := some ((jsOrStr e.conversation_id (some cid)).getD cid) }

/-- The outbound backend request (lines 132-139); `inputs` is always the
empty object and is not modelled.  `query` keeps the JS value of
`lastUserMessage.content`, which may be absent. -/
structure DifyRequest where
  query : Option String
  conversation_id : String
  user : String
  response_mode : String
  conversation_history : List HistoryEntry
deriving Repr, DecidableEq

/-- The backend request built once the last user message is found
(server.js lines 61-164): resolve the conversation id from the store,
fold assistant overrides over the non-system messages, build the history
and stamp it when a non-empty id was resolved. -/
def buildDifyRequest (messages : List Msg) (conversationKey : String)
    (user : Option String) (store : Store) (lastUserMessage : Msg) : DifyRequest :=
  let conversationId0 := (Store.get store conversationKey).getD ""
  let nonSystemMessages := List.filter (fun m => m.role != some "system") messages
  let conversationId := foldConversationId nonSystemMessages conversationId0
  let history := nonSystemMessages.map mkHistoryEntry
  { query := lastUserMessage.content
    conversation_id := conversationId
    user := user.getD "default-user"
    response_mode := "streaming"
    conversation_history := if conversationId != "" then
      history.map (stampConversationId conversationId) else history }

/-- Embedding of `convertOpenAIToDifyFormat(messages, conversationKey, user)`
(server.js lines 51-165).  The JS function copies the `messages` array and
reverses only the copy, so every later read of `messages` sees the original
order; here `messages.reverse` is a pure value.  Throwing is modelled with
`Except` (`Error('No user message found')`), and the conversation store is
threaded explicitly: the function only reads it and returns it unchanged. -/
def convertOpenAIToDifyFormat (messages : List Msg) (conversationKey : String)
    (user : Option String) (store : Store) : Except String DifyRequest × Store :=
  (match List.find? (fun m => m.role == some "user") messages.reverse with
   | none => Except.error "No user message found"
   | some lastUserMessage =>
      Except.ok (buildDifyRequest messages conversationKey user store lastUserMessage),
   store)

/-- A parsed JSON value, as JSON.parse produces one for a backend stream
event.  Numeric literals keep their raw text: the translator never consumes
a numeric field of a stream event. -/
inductive JsonVal where
  | null : JsonVal
  | bool : Bool → JsonVal
  | num : String → JsonVal
  | str : String → JsonVal
  | arr : List JsonVal → JsonVal
  | obj : List (String × JsonVal) → JsonVal
deriving Repr

/-- Property read on a parsed object: `none` when the value is not an object
or the key is absent; a duplicated key keeps its last value, as JSON.parse
does. -/
def JsonVal.getField : JsonVal → String → Option JsonVal
  | .obj fields, k => ((List.filter (fun kv => kv.1 == k) fields).getLast?).map (fun kv => kv.2)
  | _, _ => none

/-- The string carried by a JSON value, if it is a string. -/
def JsonVal.asString : JsonVal → Option String
  | .str s => some s
  | _ => none

/-- A string-valued property read (the event fields the translator consumes
are string-typed in the backend protocol). -/
def JsonVal.getStrField (j : JsonVal) (k : String) : Option String :=
  (j.getField k).bind JsonVal.asString

/-- JSON whitespace. -/
def isJsonWs (c : Char) : Bool :=
  [' ', '\t', '\n', '\r'].contains c

def skipJsonWs : List Char → List Char
  | [] => []
  | c :: cs => if isJsonWs c then skipJsonWs cs else c :: cs

def hexDigitVal (c : Char) : Option Nat :=
  let n := c.toNat
  if 48 ≤ n && n ≤ 57 then some (n - 48)
  else if 97 ≤ n && n ≤ 102 then some (n - 87)
  else if 65 ≤ n && n ≤ 70 then some (n - 55)
  else none

/-- Body of a JSON string literal, after the opening quote: handles the JSON
escapes and rejects raw control characters; returns the decoded string and
the input after the closing quote. -/
def parseStringBody : Nat → List Char → List Char → Option (String × List Char)
  | 0, _, _ => none
  | _+1, _, [] => none
  | fuel+1, acc, c :: cs =>
    if c == '"' then some (String.mk acc.reverse, cs)
    else if c == '\\' then
      match cs with
      | [] => none
      | e :: cs2 =>
        if e == '"' then parseStringBody fuel ('"' :: acc) cs2
        else if e == '\\' then parseStringBody fuel ('\\' :: acc) cs2
        else if e == '/' then parseStringBody fuel ('/' :: acc) cs2
        else if e == 'b' then parseStringBody fuel ('\x08' :: acc) cs2
        else if e == 'f' then parseStringBody fuel ('\x0c' :: acc) cs2
        else if e == 'n' then parseStringBody fuel ('\n' :: acc) cs2
        else if e == 'r' then parseStringBody fuel ('\r' :: acc) cs2
        else if e == 't' then parseStringBody fuel ('\t' :: acc) cs2
        else if e == 'u' then
          match cs2 with
          | h1 :: h2 :: h3 :: h4 :: cs3 =>
            match hexDigitVal h1, hexDigitVal h2, hexDigitVal h3, hexDigitVal h4 with
            | some a, some b, some c2, some d =>
              parseStringBody fuel (Char.ofNat (a * 4096 + b * 256 + c2 * 16 + d) :: acc) cs3
            | _, _, _, _ => none
          | _ => none
        else none
    else if c.toNat < 32 then none
    else parseStringBody fuel (c :: acc) cs

def parseDigits (cs : List Char) : List Char × List Char :=
  (cs.takeWhile Char.isDigit, cs.dropWhile Char.isDigit)

/-- Integer part of the strict JSON number grammar (no leading zeros). -/
def parseUIntPart : List Char → Option (List Char × List Char)
  | [] => none
  | c :: t =>
    if c == '0' then some (['0'], t)
    else if c.isDigit then
      some (c :: (parseDigits t).1, (parseDigits t).2)
    else none

def parseFracPart : List Char → Option (List Char × List Char)
  | '.' :: t =>
    if (parseDigits t).1.isEmpty then none
    else some ('.' :: (parseDigits t).1, (parseDigits t).2)
  | cs => some ([], cs)

def parseExpPart : List Char → Option (List Char × List Char)
  | [] => some ([], [])
  | e :: t =>
    if e == 'e' || e == 'E' then
      match t with
      | '+' :: u =>
        if (parseDigits u).1.isEmpty then none
        else some (e :: '+' :: (parseDigits u).1, (parseDigits u).2)
      | '-' :: u =>
        if (parseDigits u).1.isEmpty then none
        else some (e :: '-' :: (parseDigits u).1, (parseDigits u).2)
      | u =>
        if (parseDigits u).1.isEmpty then none
        else some (e :: (parseDigits u).1, (parseDigits u).2)
    else some ([], e :: t)

/-- A JSON numeric literal; the raw text is kept. -/
def parseNumberRaw (cs : List Char) : Option (String × List Char) :=
  let sp := match cs with
    | '-' :: t => ((['-'] : List Char), t)
    | _ => (([] : List Char), cs)
  match parseUIntPart sp.2 with
  | none => none
  | some (ip, cs2) =>
    match parseFracPart cs2 with
    | none => none
    | some (fp, cs3) =>
      match parseExpPart cs3 with
      | none => none
      | some (ep, cs4) => some (String.mk (sp.1 ++ ip ++ fp ++ ep), cs4)

def dropLit (lit : List Char) (cs : List Char) : Option (List Char) :=
  if lit.isPrefixOf cs then some (cs.drop lit.length) else none

mutual

/-- One JSON value, leading whitespace allowed; fuel bounds the recursion
depth and exceeds any depth reachable from the supplied input length. -/
def parseValue : Nat → List Char → Option (JsonVal × List Char)
  | 0, _ => none
  | fuel+1, cs =>
    match skipJsonWs cs with
    | [] => none
    | c :: rest =>
      if c == '"' then
        (parseStringBody (rest.length + 1) [] rest).map (fun p => (JsonVal.str p.1, p.2))
      else if c == '{' then parseMembersStart fuel rest
      else if c == '[' then parseElemsStart fuel rest
      else if c == 't' then (dropLit ['r', 'u', 'e'] rest).map (fun r => (JsonVal.bool true, r))
      else if c == 'f' then (dropLit ['a', 'l', 's', 'e'] rest).map (fun r => (JsonVal.bool false, r))
      else if c == 'n' then (dropLit ['u', 'l', 'l'] rest).map (fun r => (JsonVal.null, r))
      else (parseNumberRaw (c :: rest)).map (fun p => (JsonVal.num p.1, p.2))

def parseMembersStart : Nat → List Char → Option (JsonVal × List Char)
  | 0, _ => none
  | fuel+1, cs =>
    match skipJsonWs cs with
    | '}' :: rest => some (JsonVal.obj [], rest)
    | rest => parseMembers fuel rest []

def parseMembers : Nat → List Char → List (String × JsonVal) → Option (JsonVal × List Char)
  | 0, _, _ => none
  | fuel+1, cs, acc =>
    match skipJsonWs cs with
    | '"' :: rest =>
      match parseStringBody (rest.length + 1) [] rest with
      | none => none
      | some (k, cs2) =>
        match skipJsonWs cs2 with
        | ':' :: cs3 =>
          match parseValue fuel cs3 with
          | none => none
          | some (v, cs4) =>
            match skipJsonWs cs4 with
            | ',' :: cs5 => parseMembers fuel cs5 (acc ++ [(k, v)])
            | '}' :: cs5 => some (JsonVal.obj (acc ++ [(k, v)]), cs5)
            | _ => none
        | _ => none
    | _ => none

def parseElemsStart : Nat → List Char → Option (JsonVal × List Char)
  | 0, _ => none
  | fuel+1, cs =>
    match skipJsonWs cs with
    | ']' :: rest => some (JsonVal.arr [], rest)
    | rest => parseElems fuel rest []

def parseElems : Nat → List Char → List JsonVal → Option (JsonVal × List Char)
  | 0, _, _ => none
  | fuel+1, cs, acc =>
    match parseValue fuel cs with
    | none => none
    | some (v, cs2) =>
      match skipJsonWs cs2 with
      | ',' :: cs3 => parseElems fuel cs3 (acc ++ [v])
      | ']' :: cs3 => some (JsonVal.arr (acc ++ [v]), cs3)
      | _ => none

end

/-- JSON.parse of one complete text: a single value, surrounding whitespace
allowed, trailing input rejected. -/
def parseJson (s : String) : Option JsonVal :=
  match parseValue (s.length + 1) s.data with
  | some (j, rest) => if (skipJsonWs rest).isEmpty then some j else none
  | none => none

/-- The whitespace class of the repair pattern (JS regex `\s`). -/
def isRegexWs (c : Char) : Bool :=
  [' ', '\t', '\n', '\r', '\x0b', '\x0c'].contains c

/-- The repair step (line 175): a global left-to-right replacement of every
occurrence of quote, whitespace run, quote — the second quote not followed
by a closing brace — with quote, comma, space, quote; scanning resumes
after each replaced occurrence. -/
def fixJsonChars : Nat → List Char → List Char
  | 0, cs => cs
  | _+1, [] => []
  | fuel+1, c :: cs =>
    if c == '"' then
      match cs.takeWhile isRegexWs, cs.dropWhile isRegexWs with
      | _ :: _, '"' :: tail =>
        if tail.head? == some '}' then c :: fixJsonChars fuel cs
        else '"' :: ',' :: ' ' :: '"' :: fixJsonChars fuel tail
      | _, _ => c :: fixJsonChars fuel cs
    else c :: fixJsonChars fuel cs

def fixJson (s : String) : String :=
  String.mk (fixJsonChars (s.length + 1) s.data)

/-- JS `String.replace` with a plain-string pattern replaces only the first
occurrence: the translator strips one leading `data: ` tag (line 170). -/
def replaceFirstChars (pat : List Char) : Nat → List Char → List Char
  | 0, cs => cs
  | _+1, [] => []
  | fuel+1, c :: cs =>
    if pat.isPrefixOf (c :: cs) then (c :: cs).drop pat.length
    else c :: replaceFirstChars pat fuel cs

def removeDataTag (s : String) : String :=
  String.mk (replaceFirstChars ("data: ".data) (s.length + 1) s.data)

/-- JS `String.prototype.trim`: strip the whitespace class from both ends. -/
def jsTrim (s : String) : String :=
  String.mk (((s.data.dropWhile isRegexWs).reverse.dropWhile isRegexWs).reverse)

/-- JS `String.prototype.startsWith`. -/
def jsStartsWith (s pre : String) : Bool :=
  pre.data.isPrefixOf s.data

/-- JS `String.prototype.split('\n')` over the characters of a string. -/
def splitLinesChars : List Char → List (List Char)
  | [] => [[]]
  | c :: cs =>
    match splitLinesChars cs with
    | [] => [[]]
    | l :: ls => if c == '\n' then [] :: l :: ls else (c :: l) :: ls

def splitLines (s : String) : List String :=
  (splitLinesChars s.data).map String.mk

/-- The `delta` of an emitted stream chunk (lines 194-197, 226-228): role is
always `assistant`; `content` is present only on `message` events;
`conversation_id` is attached when the event carried one. -/
structure ChunkDelta where
  role : String
  content : Option String := none
  conversation_id : Option String := none
deriving Repr, DecidableEq

/-- One entry of a chunk's `choices` (lines 192-199, 224-230). -/
structure ChunkChoice where
  index : Nat
  delta : ChunkDelta
  finish_reason : Option String
deriving Repr, DecidableEq

/-- An emitted `chat.completion.chunk` (lines 187-200, 219-231).  The
wall-clock `created` field is not modelled. -/
structure Chunk where
  id : Option String
  object : String
  model : String
  choices : List ChunkChoice
  conversation_id : Option String := none
deriving Repr, DecidableEq

/-- The chunk built for a `message` event before conversation-id handling
(lines 187-200). -/
def mkMessageChunk (data : JsonVal) : Chunk :=
  { id := jsOrStr (data.getStrField "message_id") (data.getStrField "id")
    object := "chat.completion.chunk"
    model := "gpt-3.5-turbo"
    choices := [{ index := 0
                  delta := { role := "assistant", content := data.getStrField "answer" }
                  finish_reason := none }] }

/-- The terminal chunk built for a `message_end` event (lines 219-231):
role-only delta and `finish_reason = "stop"`. -/
def mkMessageEndChunk (data : JsonVal) : Chunk :=
  { id := jsOrStr (data.getStrField "message_id") (data.getStrField "id")
    object := "chat.completion.chunk"
    model := "gpt-3.5-turbo"
    choices := [{ index := 0
                  delta := { role := "assistant" }
                  finish_reason := some "stop" }] }

/-- Attaching a conversation id to an emitted chunk: set on the response and
on `choices[0].delta` (lines 205-206, 236-237). -/
def attachConversationId (c : Chunk) (cid : String) : Chunk :=
  { c with conversation_id := some cid
           choices := match c.choices with
             | ch :: rest => { ch with delta := { ch.delta with conversation_id := some cid } } :: rest
             | [] => [] }

/-- The conversation-id block both event branches share (lines 202-207 and
233-238): when the event carries a truthy `conversation_id`, store it under
the active key and attach it to the chunk. -/
def applyConversationId (c : Chunk) (data : JsonVal) (conversationKey : String)
    (store : Store) : Option Chunk × Store :=
  if strTruthy (data.getStrField "conversation_id") then
    (some (attachConversationId c ((data.getStrField "conversation_id").getD "")),
     Store.set store conversationKey ((data.getStrField "conversation_id").getD ""))
  else (some c, store)

/-- Dispatch on the parsed event (lines 177-243): `message` and
`message_end` produce chunks, every other event kind produces nothing. -/
def handleParsedEvent (data : JsonVal) (conversationKey : String) (store : Store) :
    Option Chunk × Store :=
  if data.getStrField "event" == some "message" then
    applyConversationId (mkMessageChunk data) data conversationKey store
  else if data.getStrField "event" == some "message_end" then
    applyConversationId (mkMessageEndChunk data) data conversationKey store
  else (none, store)

/-- Embedding of `convertDifyToOpenAIStreamFormat(difyChunk, conversationKey)`
(lines 168-248): strip one `data: ` tag and trim; an empty remainder or a
text that fails JSON.parse after the repair step produces nothing (the JS
catch returns null); otherwise dispatch on the event kind.  The store is
threaded explicitly. -/
def convertDifyToOpenAIStreamFormat (difyChunk conversationKey : String) (store : Store) :
    Option Chunk × Store :=
  let cleanChunk := jsTrim (removeDataTag difyChunk)
  if cleanChunk == "" then (none, store)
  else
    match parseJson (fixJson cleanChunk) with
    | none => (none, store)
    | some data => handleParsedEvent data conversationKey store

/-- One observable action of the HTTP response object on the streaming path. -/
inductive RelayAction where
  | writeChunk : Chunk → RelayAction
  | writeRaw : String → RelayAction
  | endResponse : RelayAction
  | setStatus : Nat → RelayAction
deriving Repr, DecidableEq

/-- Translate and write each recognized line of one backend data frame
(lines 294-300). -/
def processDataChunkLines (lines : List String) (conversationKey : String) (store : Store) :
    List RelayAction × Store :=
  match lines with
  | [] => ([], store)
  | l :: rest =>
    let r1 := convertDifyToOpenAIStreamFormat l conversationKey store
    let r2 := processDataChunkLines rest conversationKey r1.2
    match r1.1 with
    | some c => (RelayAction.writeChunk c :: r2.1, r2.2)
    | none => (r2.1, r2.2)

/-- The `data` handler for one backend frame (lines 287-305): split on
newlines, keep the lines that start with `data:`, translate each in order
and write each non-null result. -/
def onDataChunk (chunkStr conversationKey : String) (store : Store) :
    List RelayAction × Store :=
  processDataChunkLines
    ((splitLines chunkStr).filter (fun l => jsStartsWith l "data:"))
    conversationKey store

/-- One event on the backend response stream. -/
inductive StreamEvt where
  | dataChunk : String → StreamEvt
  | errorEvt : StreamEvt
  | endEvt : StreamEvt
deriving Repr, DecidableEq

/-- The stream relay (lines 287-317): data frames are translated and written
as they arrive; the first backend `error` or `end` event writes the terminal
sentinel frame and ends the client response, after which no further actions
occur. -/
def runRelay (evts : List StreamEvt) (conversationKey : String) (store : Store) :
    List RelayAction × Store :=
  match evts with
  | [] => ([], store)
  | StreamEvt.dataChunk s :: rest =>
    let r1 := onDataChunk s conversationKey store
    let r2 := runRelay rest conversationKey r1.2
    (r1.1 ++ r2.1, r2.2)
  | StreamEvt.errorEvt :: _ =>
    ([RelayAction.writeRaw "data: [DONE]\n\n", RelayAction.endResponse], store)
  | StreamEvt.endEvt :: _ =>
    ([RelayAction.writeRaw "data: [DONE]\n\n", RelayAction.endResponse], store)

/-- Usage metadata passed through from the backend (lines 342-346). -/
structure Usage where
  prompt_tokens : Nat
  completion_tokens : Nat
  total_tokens : Nat
deriving Repr, DecidableEq

/-- The `metadata` of a blocking backend reply. -/
structure DifyMetadata where
  usage : Option Usage := none
deriving Repr, DecidableEq

/-- A blocking-mode backend reply (`response.data`, lines 326-354), typed as
the backend protocol types it. -/
structure DifyReply where
  message_id : Option String := none
  id : Option String := none
  answer : Option String := none
  conversation_id : Option String := none
  metadata : Option DifyMetadata := none
deriving Repr, DecidableEq

/-- The `message` of a non-streaming response choice (lines 336-339, 353). -/
structure RespMessage where
  role : String
  content : Option String
  conversation_id : Option String := none
deriving Repr, DecidableEq

/-- One choice of a non-streaming response (lines 334-341). -/
structure RespChoice where
  index : Nat
  message : RespMessage
  finish_reason : String
deriving Repr, DecidableEq

/-- A non-streaming `chat.completion` response (lines 329-347); the
wall-clock `created` field is not modelled. -/
structure OpenAIResponse where
  id : Option String
  object : String
  model : String
  choices : List RespChoice
  usage : Usage
  conversation_id : Option String := none
deriving Repr, DecidableEq

/-- The `messages` field of the request body: absent, present but not an
array, or an array of messages (line 261 checks the first two). -/
inductive MessagesField where
  | absent : MessagesField
  | notArray : MessagesField
  | arr : List Msg → MessagesField
deriving Repr, DecidableEq

/-- The outcome of the backend HTTP call: a reply, or an axios error with
`error.response?.status`, `error.response?.data?.message` and
`error.message` (lines 366-377). -/
inductive BackendResult where
  | ok : DifyReply → BackendResult
  | axiosErr : Option Nat → Option String → String → BackendResult
deriving Repr, DecidableEq

/-- The JSON body the endpoint sends back. -/
inductive RespBody where
  | errStr : String → RespBody
  | errObj : String → String → Option Nat → RespBody
  | completion : OpenAIResponse → RespBody
  | sseStarted : DifyRequest → RespBody
deriving Repr, DecidableEq

/-- Status and body of the endpoint's HTTP response. -/
structure HttpResp where
  status : Nat
  body : RespBody
deriving Repr, DecidableEq

/-- `error.response?.status || 500` (line 368). -/
def axiosStatus : Option Nat → Nat
  | some n => if n != 0 then n else 500
  | none => 500

/-- `error.response?.data?.message || error.message` (line 369). -/
def axiosMessage (dataMessage : Option String) (errMessage : String) : String :=
  (jsOrStr dataMessage (some errMessage)).getD errMessage

/-- The axios-error branch of the catch handler (lines 366-377). -/
def axiosErrorResponse (st : Option Nat) (dataMessage : Option String)
    (errMessage : String) : HttpResp :=
  { status := axiosStatus st
    body := RespBody.errObj ("Dify API error: " ++ axiosMessage dataMessage errMessage)
      "dify_api_error" (some (axiosStatus st)) }

/-- The non-streaming success branch (lines 329-361): build the completion,
zero-fill usage when the reply carries none, and store/attach the reply's
conversation id when truthy. -/
def blockingResponse (reply : DifyReply) (conversationKey : String) (store : Store) :
    HttpResp × Store :=
  let usage := (reply.metadata.bind DifyMetadata.usage).getD
    { prompt_tokens := 0, completion_tokens := 0, total_tokens := 0 }
  let base : OpenAIResponse :=
    { id := jsOrStr reply.message_id reply.id
      object := "chat.completion"
      model := "gpt-3.5-turbo"
      choices := [{ index := 0
                    message := { role := "assistant", content := reply.answer }
                    finish_reason := "stop" }]
      usage := usage }
  if strTruthy reply.conversation_id then
    ({ status := 200
       body := RespBody.completion
         { base with conversation_id := some (reply.conversation_id.getD "")
                     choices := [{ index := 0
                                   message := { role := "assistant"
                                                content := reply.answer
                                                conversation_id := some (reply.conversation_id.getD "") }
                                   finish_reason := "stop" }] } },
     Store.set store conversationKey (reply.conversation_id.getD ""))
  else ({ status := 200, body := RespBody.completion base }, store)

/-- Embedding of the `POST /v1/chat/completions` handler (lines 257-388).
The backend call is abstracted as a `BackendResult` parameter; in streaming
mode a successful call hands over to the relay (`runRelay` models the
response-stream lifecycle) and the response so far is the SSE start.  A
thrown `Error('No user message found')` is not an axios error, so the catch
handler's generic branch answers it (lines 378-386). -/
def postChatCompletions (mf : MessagesField) (stream : Bool) (user : Option String)
    (backend : BackendResult) (store : Store) : HttpResp × Store :=
  match mf with
  | MessagesField.absent =>
    ({ status := 400, body := RespBody.errStr "Invalid messages format" }, store)
  | MessagesField.notArray =>
    ({ status := 400, body := RespBody.errStr "Invalid messages format" }, store)
  | MessagesField.arr messages =>
    let conversationKey := ((messages.head?.bind Msg.content).getD "")
    match convertOpenAIToDifyFormat messages conversationKey user store with
    | (Except.error _, store1) =>
      ({ status := 500
         body := RespBody.errObj "An internal server error occurred." "internal_server_error" none },
       store1)
    | (Except.ok difyRequest, store1) =>
      match backend with
      | BackendResult.axiosErr st dmsg emsg => (axiosErrorResponse st dmsg emsg, store1)
      | BackendResult.ok reply =>
        if stream then ({ status := 200, body := RespBody.sseStarted difyRequest }, store1)
        else blockingResponse reply conversationKey store1

/-- Claim-side resolution of the outbound conversation id: the id carried by
the last assistant-role entry (among non-system messages, in original order)
that carries a truthy one, else the registry's value for the key, else the
empty string. -/
def resolvedConversationId (messages : List Msg) (conversationKey : String)
    (store : Store) : String :=
  ((((messages.filter (fun m => m.role != some "system")).filter
      (fun m => m.role == some "assistant" && extractMsgConversationId m != "")).getLast?).map
    extractMsgConversationId).getD ((Store.get store conversationKey).getD "")

/-- The usage object carried by a response body, when it is a completion. -/
def usageOf : RespBody → Option Usage
  | RespBody.completion c => some c.usage
  | _ => none

/-- First request of the continuity scenario: one user message whose content
is also the derived conversation key. -/
def contFirstMsgs : List Msg := [{ role := some "user", content := some "k" }]

/-- A backend `message` event line reporting conversation id `abc`. -/
def contLine : String :=
  "data: \x7b\"event\": \"message\", \"answer\": \"x\", \"conversation_id\": \"abc\"\x7d"

/-- The parsed JSON payload of `contLine`. -/
def contData : JsonVal :=
  JsonVal.obj [("event", JsonVal.str "message"), ("answer", JsonVal.str "x"),
    ("conversation_id", JsonVal.str "abc")]

/-- The store after the relay translated `contLine` under key `k`. -/
def contStore2 : Store := (convertDifyToOpenAIStreamFormat contLine "k" []).2

/-- A blocking backend reply reporting conversation id `abc`. -/
def contBlockingReply : DifyReply := { answer := some "x", conversation_id := some "abc" }

/-- A subsequent request deriving the same key whose history embeds a
different assistant-carried conversation id. -/
def contSecondMsgs : List Msg :=
  [{ role := some "user", content := some "k" },
   { role := some "assistant", content := some "a", conversation_id := some "xyz" },
   { role := some "user", content := some "q" }]

/-- A subsequent request deriving the same key with no assistant-embedded
conversation id. -/
def contPlainSecondMsgs : List Msg :=
  [{ role := some "user", content := some "k" },
   { role := some "assistant", content := some "a" },
   { role := some "user", content := some "q" }]

/-- The backend event sequence message("Hi"), message(" there"),
message_end(), then natural end of stream, as raw SSE frames. -/
def streamHiEvents : List StreamEvt :=
  [StreamEvt.dataChunk "data: \x7b\"event\": \"message\", \"answer\": \"Hi\"\x7d\n\n",
   StreamEvt.dataChunk "data: \x7b\"event\": \"message\", \"answer\": \" there\"\x7d\n\n",
   StreamEvt.dataChunk "data: \x7b\"event\": \"message_end\"\x7d\n\n",
   StreamEvt.endEvt]

/-- The chunk translated from message("Hi"). -/
def chunkHi : Chunk :=
  { id := none
    object := "chat.completion.chunk"
    model := "gpt-3.5-turbo"
    choices := [{ index := 0
                  delta := { role := "assistant", content := some "Hi" }
                  finish_reason := none }] }

/-- The chunk translated from message(" there"). -/
def chunkThere : Chunk :=
  { id := none
    object := "chat.completion.chunk"
    model := "gpt-3.5-turbo"
    choices := [{ index := 0
                  delta := { role := "assistant", content := some " there" }
                  finish_reason := none }] }

/-- The terminal chunk translated from message_end(). -/
def chunkStop : Chunk :=
  { id := none
    object := "chat.completion.chunk"
    model := "gpt-3.5-turbo"
    choices := [{ index := 0
                  delta := { role := "assistant" }
                  finish_reason := some "stop" }] }

/-- A backend line whose payload fails JSON.parse even after repair. -/
def badLine : String := "data: \x7bnot json\x7d"

/-- A stream with one unparseable line between two valid message events. -/
def resilienceEvents : List StreamEvt :=
  [StreamEvt.dataChunk "data: \x7b\"event\": \"message\", \"answer\": \"Hi\"\x7d\n\n",
   StreamEvt.dataChunk badLine,
   StreamEvt.dataChunk "data: \x7b\"event\": \"message\", \"answer\": \" there\"\x7d\n\n",
   StreamEvt.endEvt]

/-- The blocking backend reply of the worked example. -/
def blockingReplyExample : DifyReply :=
  { message_id := some "m1", answer := some "Hello!", conversation_id := some "c1" }

/-- The inbound request of the worked blocking example: its derived
conversation key is `hello`. -/
def blockingMsgsExample : List Msg := [{ role := some "user", content := some "hello" }]

/-- A parsed event of an unrecognized kind. -/
def pingData : JsonVal := JsonVal.obj [("event", JsonVal.str "ping")]

/-- A well-formed backend line of an unrecognized event kind. -/
def pingLine : String := "data: \x7b\"event\": \"ping\"\x7d"

/-- A concrete usage object for the metadata pass-through example. -/
def exampleUsage : Usage := { prompt_tokens := 1, completion_tokens := 2, total_tokens := 3 }

/-- A blocking reply carrying usage metadata. -/
def usageReplyExample : DifyReply :=
  { answer := some "ok"
    metadata := some { usage := some exampleUsage } }

theorem find?_eq_head?_filter {α : Type} (p : α → Bool) (l : List α) :
    l.find? p = (l.filter p).head? := by
  induction l with
  | nil => rfl
  | cons a t ih =>
    cases h : p a
    · rw [List.find?_cons_of_neg _ (by simp [h]), List.filter_cons_of_neg (by simp [h]), ih]
    · rw [List.find?_cons_of_pos _ h, List.filter_cons_of_pos h, List.head?_cons]

theorem find?_reverse_eq_getLast?_filter {α : Type} (p : α → Bool) (l : List α) :
    l.reverse.find? p = (l.filter p).getLast? := by
  rw [find?_eq_head?_filter, List.filter_reverse, List.head?_reverse]

theorem foldConversationId_eq (l : List Msg) (init : String) :
    foldConversationId l init =
      (((l.filter (fun m => extractMsgConversationId m != "")).getLast?).map
        extractMsgConversationId).getD init := by
  induction l generalizing init with
  | nil => rfl
  | cons m t ih =>
    have hstep : ∀ i : String, foldConversationId (m :: t) i =
        foldConversationId t (if extractMsgConversationId m != "" then
          extractMsgConversationId m else i) := fun i => rfl
    cases h : (extractMsgConversationId m != "")
    · rw [hstep, if_neg (by simp [h]), List.filter_cons, if_neg (by simp [h]), ih]
    · rw [hstep, if_pos (by simp [h]), List.filter_cons, if_pos (by simp [h]), ih,
        List.getLast?_cons]
      cases hf : (t.filter (fun m => extractMsgConversationId m != "")).getLast? <;> simp [hf]

theorem Store.get_set_self (s : Store) (k v : String) :
    Store.get (Store.set s k v) k = some v := by
  simp [Store.get, Store.set, List.find?_cons]

theorem Store.all_set (s : Store) (k v : String) (p : String × String → Bool)
    (hs : s.all p = true) (hv : p (k, v) = true) : (Store.set s k v).all p = true := by
  simp only [Store.set, List.all_cons, hv, Bool.true_and]
  rw [List.all_eq_true] at hs ⊢
  intro x hx
  exact hs x (List.mem_filter.mp hx).1

theorem convert_fst (messages : List Msg) (conversationKey : String)
    (user : Option String) (store : Store) :
    (convertOpenAIToDifyFormat messages conversationKey user store).1 =
      match List.find? (fun m => m.role == some "user") messages.reverse with
      | none => Except.error "No user message found"
      | some lu => Except.ok (buildDifyRequest messages conversationKey user store lu) := rfl

theorem convert_snd (messages : List Msg) (conversationKey : String)
    (user : Option String) (store : Store) :
    (convertOpenAIToDifyFormat messages conversationKey user store).2 = store := rfl

theorem buildDifyRequest_conversation_id (messages : List Msg) (conversationKey : String)
    (user : Option String) (store : Store) (lu : Msg) :
    (buildDifyRequest messages conversationKey user store lu).conversation_id =
      foldConversationId (messages.filter (fun m => m.role != some "system"))
        ((Store.get store conversationKey).getD "") := rfl

theorem buildDifyRequest_query (messages : List Msg) (conversationKey : String)
    (user : Option String) (store : Store) (lu : Msg) :
    (buildDifyRequest messages conversationKey user store lu).query = lu.content := rfl

theorem extract_ne_imp_assistant (m : Msg) (h : extractMsgConversationId m ≠ "") :
    (m.role == some "assistant") = true := by
  by_contra hr
  exact h (by unfold extractMsgConversationId; rw [if_neg hr])

theorem convPred_eq (m : Msg) :
    ((m.role == some "assistant") && (extractMsgConversationId m != "")) =
      (extractMsgConversationId m != "") := by
  cases h : (extractMsgConversationId m != "")
  · simp
  · have ha := extract_ne_imp_assistant m (by simpa using h)
    simp [ha]

theorem find?_user_ne_none (messages : List Msg) (m0 : Msg) (hm0 : m0 ∈ messages)
    (hrole : m0.role = some "user") :
    List.find? (fun m => m.role == some "user") messages.reverse ≠ none := by
  intro hfind
  have := List.find?_eq_none.mp hfind m0 (List.mem_reverse.mpr hm0)
  simp [hrole] at this

theorem convert_conversation_id_eq (messages : List Msg) (conversationKey : String)
    (user : Option String) (store : Store)
    (h : ∃ m ∈ messages, m.role = some "user") :
    (convertOpenAIToDifyFormat messages conversationKey user store).1.map
      DifyRequest.conversation_id =
      Except.ok (resolvedConversationId messages conversationKey store) := by
  obtain ⟨m0, hm0, hrole⟩ := h
  cases hfind : List.find? (fun m => m.role == some "user") messages.reverse with
  | none => exact absurd hfind (find?_user_ne_none messages m0 hm0 hrole)
  | some lu =>
    simp only [convert_fst, hfind, Except.map]
    rw [buildDifyRequest_conversation_id, foldConversationId_eq, resolvedConversationId]
    rw [show (fun m => m.role == some "assistant" && extractMsgConversationId m != "") =
      (fun m => extractMsgConversationId m != "") from funext fun m => convPred_eq m]

/-- C2: for every message list containing at least one user-role entry,
translation succeeds and the emitted query equals the content of the last
user-role entry in original order; for every list with no user-role entry,
translation fails with the missing-user-message error. -/
theorem claim2_query_from_last_user (messages : List Msg) (conversationKey : String)
    (user : Option String) (store : Store) :
    ((∃ m ∈ messages, m.role = some "user") →
      (convertOpenAIToDifyFormat messages conversationKey user store).1.map DifyRequest.query =
        Except.ok (((messages.filter (fun m => m.role == some "user")).getLast?).bind Msg.content))
    ∧ ((∀ m ∈ messages, ¬ m.role = some "user") →
      (convertOpenAIToDifyFormat messages conversationKey user store).1 =
        Except.error "No user message found") := by
  constructor
  · intro h
    obtain ⟨m0, hm0, hrole⟩ := h
    cases hfind : List.find? (fun m => m.role == some "user") messages.reverse with
    | none => exact absurd hfind (find?_user_ne_none messages m0 hm0 hrole)
    | some lu =>
      have hlast : (messages.filter (fun m => m.role == some "user")).getLast? = some lu := by
        rw [← find?_reverse_eq_getLast?_filter]
        exact hfind
      simp only [convert_fst, hfind, Except.map, hlast]
      rfl
  · intro h
    have hfind : List.find? (fun m => m.role == some "user") messages.reverse = none := by
      apply List.find?_eq_none.mpr
      intro x hx
      simpa using h x (List.mem_reverse.mp hx)
    simp only [convert_fst, hfind]

/-- C7: the outbound conversation id equals the id carried by the last
assistant-role entry among the non-system messages that carries one (probed
across the candidate locations, later entries overriding earlier ones);
when no assistant entry carries one it is the registry value for the key,
else the empty string. -/
theorem claim7_conversation_id_resolution (messages : List Msg) (conversationKey : String)
    (user : Option String) (store : Store)
    (h : ∃ m ∈ messages, m.role = some "user") :
    (convertOpenAIToDifyFormat messages conversationKey user store).1.map
      DifyRequest.conversation_id =
      Except.ok (resolvedConversationId messages conversationKey store) :=
  convert_conversation_id_eq messages conversationKey user store h

/-- C8: request translation has no side effects: the store is returned
unchanged, and the reconstructed history reflects the non-system messages
in their original order (the reversal for the last-user search acts on a
copy, never on the inbound array). -/
theorem claim8_translation_pure (messages : List Msg) (conversationKey : String)
    (user : Option String) (store : Store) :
    (convertOpenAIToDifyFormat messages conversationKey user store).2 = store
    ∧ ∀ r, (convertOpenAIToDifyFormat messages conversationKey user store).1 = Except.ok r →
        r.conversation_history.map (fun e => (e.role, e.content)) =
          (messages.filter (fun m => m.role != some "system")).map
            (fun m => (m.role, extractContent m)) := by
  refine ⟨rfl, ?_⟩
  intro r hr
  cases hfind : List.find? (fun m => m.role == some "user") messages.reverse with
  | none => simp only [convert_fst, hfind] at hr; cases hr
  | some lu =>
    simp only [convert_fst, hfind, Except.ok.injEq] at hr
    subst hr
    show (buildDifyRequest messages conversationKey user store lu).conversation_history.map _ = _
    simp only [buildDifyRequest]
    split
    · rw [List.map_map, List.map_map]
      rfl
    · rw [List.map_map]
      rfl

theorem resolved_of_no_embedded (messages : List Msg) (conversationKey : String) (s : Store)
    (h : ∀ m ∈ messages, extractMsgConversationId m = "") :
    resolvedConversationId messages conversationKey s =
      (Store.get s conversationKey).getD "" := by
  unfold resolvedConversationId
  have hnil : (messages.filter (fun m => m.role != some "system")).filter
      (fun m => m.role == some "assistant" && extractMsgConversationId m != "") = [] := by
    rw [List.filter_eq_nil_iff]
    intro m hm
    have := h m (List.mem_filter.mp hm).1
    simp [this]
  rw [hnil]
  rfl

/-- C3 (amended): with no prior registry entry for the key and no
assistant-embedded conversation id in the first request, the outbound
request carries the empty conversation id; once the backend reports
conversation id `abc` for the key - either through a stream event
(lines 202-207, 233-238) or through a blocking reply handled by the
non-streaming endpoint branch (lines 349-354) - every subsequent request
deriving the same key whose messages carry no assistant-embedded
conversation id carries `abc` in its outbound request. -/
theorem claim3_continuity_roundtrip (msgs1 msgs2 msgsB : List Msg) (conversationKey : String)
    (u1 u2 uB : Option String) (store : Store) (data : JsonVal) (line : String)
    (reply : DifyReply)
    (h0 : Store.get store conversationKey = none)
    (h1 : ∀ m ∈ msgs1, extractMsgConversationId m = "")
    (hu1 : ∃ m ∈ msgs1, m.role = some "user")
    (h2 : ∀ m ∈ msgs2, extractMsgConversationId m = "")
    (hu2 : ∃ m ∈ msgs2, m.role = some "user")
    (hne : ¬ jsTrim (removeDataTag line) = "")
    (hp : parseJson (fixJson (jsTrim (removeDataTag line))) = some data)
    (hev : data.getStrField "event" = some "message" ∨
      data.getStrField "event" = some "message_end")
    (hcid : data.getStrField "conversation_id" = some "abc")
    (hkB : (msgsB.head?.bind Msg.content).getD "" = conversationKey)
    (huB : ∃ m ∈ msgsB, m.role = some "user")
    (hrep : reply.conversation_id = some "abc") :
    (convertOpenAIToDifyFormat msgs1 conversationKey u1 store).1.map
      DifyRequest.conversation_id = Except.ok ""
    ∧ Store.get (convertDifyToOpenAIStreamFormat line conversationKey store).2
        conversationKey = some "abc"
    ∧ (convertOpenAIToDifyFormat msgs2 conversationKey u2
        (convertDifyToOpenAIStreamFormat line conversationKey store).2).1.map
        DifyRequest.conversation_id = Except.ok "abc"
    ∧ Store.get (postChatCompletions (MessagesField.arr msgsB) false uB
        (BackendResult.ok reply) store).2 conversationKey = some "abc"
    ∧ (convertOpenAIToDifyFormat msgs2 conversationKey u2
        (postChatCompletions (MessagesField.arr msgsB) false uB
          (BackendResult.ok reply) store).2).1.map
        DifyRequest.conversation_id = Except.ok "abc" := by
  have hstore2 : Store.get (convertDifyToOpenAIStreamFormat line conversationKey store).2
      conversationKey = some "abc" := by
    have hcl : (jsTrim (removeDataTag line) == "") = false := by
      cases hb : (jsTrim (removeDataTag line) == "")
      · rfl
      · exact absurd (by simpa using hb) hne
    have hstep : convertDifyToOpenAIStreamFormat line conversationKey store =
        handleParsedEvent data conversationKey store := by
      unfold convertDifyToOpenAIStreamFormat
      rw [if_neg (by simp [hcl]), hp]
    rw [hstep]
    unfold handleParsedEvent
    cases hev with
    | inl he =>
      rw [if_pos (by simp [he])]
      unfold applyConversationId
      rw [hcid]
      rw [if_pos (by rfl)]
      exact Store.get_set_self store conversationKey "abc"
    | inr he =>
      rw [if_neg (by simp [he]), if_pos (by simp [he])]
      unfold applyConversationId
      rw [hcid]
      rw [if_pos (by rfl)]
      exact Store.get_set_self store conversationKey "abc"
  have hstore3 : Store.get (postChatCompletions (MessagesField.arr msgsB) false uB
      (BackendResult.ok reply) store).2 conversationKey = some "abc" := by
    obtain ⟨mB, hmB, hroleB⟩ := huB
    cases hfindB : List.find? (fun m => m.role == some "user") msgsB.reverse with
    | none => exact absurd hfindB (find?_user_ne_none msgsB mB hmB hroleB)
    | some lu =>
      simp only [postChatCompletions, convertOpenAIToDifyFormat, hfindB]
      rw [hkB]
      simp only [blockingResponse]
      rw [if_pos (show strTruthy reply.conversation_id = true by rw [hrep]; rfl)]
      rw [hrep]
      exact Store.get_set_self store conversationKey "abc"
  refine ⟨?_, hstore2, ?_, hstore3, ?_⟩
  · rw [convert_conversation_id_eq msgs1 conversationKey u1 store hu1,
      resolved_of_no_embedded msgs1 conversationKey store h1, h0]
    rfl
  · rw [convert_conversation_id_eq msgs2 conversationKey u2 _ hu2,
      resolved_of_no_embedded msgs2 conversationKey _ h2, hstore2]
    rfl
  · rw [convert_conversation_id_eq msgs2 conversationKey u2 _ hu2,
      resolved_of_no_embedded msgs2 conversationKey _ h2, hstore3]
    rfl

/-- C3 counterexample: with the registry mapping key `k` to `abc` (learned
from a backend stream event), a subsequent request deriving the same key
whose history embeds assistant conversation id `xyz` sends `xyz`, not
`abc`, so the claim as stated fails. -/
theorem claim3_counterexample :
    Store.get contStore2 "k" = some "abc"
    ∧ contSecondMsgs.head?.bind Msg.content = some "k"
    ∧ (convertOpenAIToDifyFormat contSecondMsgs "k" none contStore2).1.map
        DifyRequest.conversation_id = Except.ok "xyz"
    ∧ ("xyz" : String) ≠ "abc" := by
  refine ⟨rfl, rfl, rfl, by decide⟩

theorem claim3_witness :
    (convertOpenAIToDifyFormat contFirstMsgs "k" none []).1.map
      DifyRequest.conversation_id = Except.ok ""
    ∧ Store.get (convertDifyToOpenAIStreamFormat contLine "k" []).2 "k" = some "abc"
    ∧ (convertOpenAIToDifyFormat contPlainSecondMsgs "k" none
        (convertDifyToOpenAIStreamFormat contLine "k" []).2).1.map
        DifyRequest.conversation_id = Except.ok "abc"
    ∧ Store.get (postChatCompletions (MessagesField.arr contFirstMsgs) false none
        (BackendResult.ok contBlockingReply) []).2 "k" = some "abc"
    ∧ (convertOpenAIToDifyFormat contPlainSecondMsgs "k" none
        (postChatCompletions (MessagesField.arr contFirstMsgs) false none
          (BackendResult.ok contBlockingReply) []).2).1.map
        DifyRequest.conversation_id = Except.ok "abc" :=
  claim3_continuity_roundtrip contFirstMsgs contPlainSecondMsgs contFirstMsgs "k" none none
    none [] contData contLine contBlockingReply rfl (by decide) (by decide) (by decide)
    (by decide) (by decide) rfl (Or.inl rfl) rfl rfl (by decide) rfl

theorem claim2_witness :
    (convertOpenAIToDifyFormat contSecondMsgs "k" none []).1.map DifyRequest.query =
      Except.ok (((contSecondMsgs.filter (fun m => m.role == some "user")).getLast?).bind
        Msg.content)
    ∧ (convertOpenAIToDifyFormat [{ role := some "assistant", content := some "x" }] ""
        none []).1 = Except.error "No user message found" :=
  ⟨(claim2_query_from_last_user contSecondMsgs "k" none []).1 (by decide),
   (claim2_query_from_last_user [{ role := some "assistant", content := some "x" }] ""
     none []).2 (by decide)⟩

theorem claim7_witness :
    (convertOpenAIToDifyFormat contSecondMsgs "k" none []).1.map
      DifyRequest.conversation_id =
      Except.ok (resolvedConversationId contSecondMsgs "k" []) :=
  claim7_conversation_id_resolution contSecondMsgs "k" none [] (by decide)

theorem claim8_witness :
    (convertOpenAIToDifyFormat contSecondMsgs "k" none []).2 = ([] : Store)
    ∧ (buildDifyRequest contSecondMsgs "k" none []
        { role := some "user", content := some "q" }).conversation_history.map
        (fun e => (e.role, e.content)) =
      (contSecondMsgs.filter (fun m => m.role != some "system")).map
        (fun m => (m.role, extractContent m)) :=
  ⟨(claim8_translation_pure contSecondMsgs "k" none []).1,
   (claim8_translation_pure contSecondMsgs "k" none []).2 _ rfl⟩

/-- C1: the code's actual client-fault responses, refuting the claimed
4xx-with-structured-body guarantee: a messages array without a user-role
entry is answered 500 with an error object lacking the status field (in
either mode), and an absent or non-array messages field is answered 400
with a plain-string error body. -/
theorem claim1_client_fault_divergence :
    (postChatCompletions (MessagesField.arr [{ role := some "assistant", content := some "x" }])
        false none (BackendResult.ok {}) []).1 =
      { status := 500
        body := RespBody.errObj "An internal server error occurred."
          "internal_server_error" none }
    ∧ (postChatCompletions (MessagesField.arr [{ role := some "assistant", content := some "x" }])
        true none (BackendResult.ok {}) []).1.status = 500
    ∧ (postChatCompletions MessagesField.absent false none (BackendResult.ok {}) []).1 =
      { status := 400, body := RespBody.errStr "Invalid messages format" }
    ∧ (postChatCompletions MessagesField.notArray false none (BackendResult.ok {}) []).1 =
      { status := 400, body := RespBody.errStr "Invalid messages format" } :=
  ⟨rfl, rfl, rfl, rfl⟩

/-- C4: the backend sequence message("Hi"), message(" there"), message_end()
translates to exactly three chunks in that order, the first two carrying
delta contents "Hi" and " there" with null finish_reason and the third a
terminal chunk with no content and finish_reason "stop", followed by the
terminal sentinel frame and the end of the response. -/
theorem claim4_stream_sequence :
    (runRelay streamHiEvents "k" []).1 =
      [RelayAction.writeChunk chunkHi, RelayAction.writeChunk chunkThere,
       RelayAction.writeChunk chunkStop,
       RelayAction.writeRaw "data: [DONE]\n\n", RelayAction.endResponse]
    ∧ chunkHi.choices.map (fun c => (c.delta.content, c.finish_reason)) = [(some "Hi", none)]
    ∧ chunkThere.choices.map (fun c => (c.delta.content, c.finish_reason)) =
      [(some " there", none)]
    ∧ chunkStop.choices.map (fun c => (c.delta.content, c.finish_reason)) =
      [(none, some "stop")] :=
  ⟨rfl, rfl, rfl, rfl⟩

/-- C5: the stream-event translator is total over raw lines: a line whose
payload fails JSON.parse even after the repair step, or whose event kind is
neither message nor message_end, yields no unit and leaves the store
unchanged; concretely, a stream with one unparseable line between two valid
message events still yields exactly the two valid chunks. -/
theorem claim5_translator_total (line conversationKey : String) (store : Store) :
    (parseJson (fixJson (jsTrim (removeDataTag line))) = none →
      convertDifyToOpenAIStreamFormat line conversationKey store = (none, store))
    ∧ (∀ data, parseJson (fixJson (jsTrim (removeDataTag line))) = some data →
        data.getStrField "event" ≠ some "message" →
        data.getStrField "event" ≠ some "message_end" →
        convertDifyToOpenAIStreamFormat line conversationKey store = (none, store))
    ∧ (runRelay resilienceEvents "k" []).1 =
      [RelayAction.writeChunk chunkHi, RelayAction.writeChunk chunkThere,
       RelayAction.writeRaw "data: [DONE]\n\n", RelayAction.endResponse] := by
  refine ⟨?_, ?_, rfl⟩
  · intro hp
    unfold convertDifyToOpenAIStreamFormat
    by_cases hc : (jsTrim (removeDataTag line) == "") = true
    · rw [if_pos hc]
    · rw [if_neg hc, hp]
  · intro data hp h1 h2
    by_cases hc : (jsTrim (removeDataTag line) == "") = true
    · exfalso
      have hemp : jsTrim (removeDataTag line) = "" := by simpa using hc
      rw [hemp] at hp
      have h0 : parseJson (fixJson "") = none := rfl
      rw [h0] at hp
      cases hp
    · unfold convertDifyToOpenAIStreamFormat
      rw [if_neg hc, hp]
      show handleParsedEvent data conversationKey store = (none, store)
      unfold handleParsedEvent
      rw [if_neg (by simp [h1]), if_neg (by simp [h2])]


theorem claim5_witness :
    convertDifyToOpenAIStreamFormat badLine "k" [] = (none, [])
    ∧ convertDifyToOpenAIStreamFormat pingLine "k" [] = (none, []) :=
  ⟨(claim5_translator_total badLine "k" []).1 rfl,
   (claim5_translator_total pingLine "k" []).2.1 pingData rfl (by decide) (by decide)⟩

theorem usageOf_blockingResponse (reply : DifyReply) (conversationKey : String) (s : Store) :
    usageOf (blockingResponse reply conversationKey s).1.body =
      some ((reply.metadata.bind DifyMetadata.usage).getD
        { prompt_tokens := 0, completion_tokens := 0, total_tokens := 0 }) := by
  simp only [blockingResponse]
  split
  · rfl
  · rfl

/-- C6: the worked blocking example: reply {message_id: m1, answer: Hello!,
conversation_id: c1} maps to a 200 chat.completion with id m1, assistant
message "Hello!", finish_reason "stop", zero-filled usage, conversation id
c1 attached to response and message, and the registry afterwards maps the
derived key "hello" to c1; in general the usage of a blocking response is
the reply's usage metadata when present, else zero-filled. -/
theorem claim6_blocking_example :
    (postChatCompletions (MessagesField.arr blockingMsgsExample) false none
        (BackendResult.ok blockingReplyExample) []).1 =
      { status := 200
        body := RespBody.completion
          { id := some "m1"
            object := "chat.completion"
            model := "gpt-3.5-turbo"
            choices := [{ index := 0
                          message := { role := "assistant", content := some "Hello!"
                                       conversation_id := some "c1" }
                          finish_reason := "stop" }]
            usage := { prompt_tokens := 0, completion_tokens := 0, total_tokens := 0 }
            conversation_id := some "c1" } }
    ∧ Store.get (postChatCompletions (MessagesField.arr blockingMsgsExample) false none
        (BackendResult.ok blockingReplyExample) []).2 "hello" = some "c1"
    ∧ ∀ (messages : List Msg) (user : Option String) (reply : DifyReply) (store : Store),
        (∃ m ∈ messages, m.role = some "user") →
        usageOf (postChatCompletions (MessagesField.arr messages) false user
            (BackendResult.ok reply) store).1.body =
          some ((reply.metadata.bind DifyMetadata.usage).getD
            { prompt_tokens := 0, completion_tokens := 0, total_tokens := 0 }) := by
  refine ⟨rfl, rfl, ?_⟩
  intro messages user reply store h
  obtain ⟨m0, hm0, hrole⟩ := h
  cases hfind : List.find? (fun m => m.role == some "user") messages.reverse with
  | none => exact absurd hfind (find?_user_ne_none messages m0 hm0 hrole)
  | some lu =>
    simp only [postChatCompletions, convertOpenAIToDifyFormat, hfind]
    exact usageOf_blockingResponse reply _ store


theorem claim6_witness :
    usageOf (postChatCompletions (MessagesField.arr blockingMsgsExample) false none
        (BackendResult.ok usageReplyExample) []).1.body =
      some ((usageReplyExample.metadata.bind DifyMetadata.usage).getD
        { prompt_tokens := 0, completion_tokens := 0, total_tokens := 0 }) :=
  claim6_blocking_example.2.2 blockingMsgsExample none usageReplyExample [] (by decide)

theorem processDataChunkLines_writes (lines : List String) (conversationKey : String)
    (s : Store) :
    ∀ a ∈ (processDataChunkLines lines conversationKey s).1,
      ∃ c, a = RelayAction.writeChunk c := by
  induction lines generalizing s with
  | nil => intro a ha; cases ha
  | cons l rest ih =>
    intro a ha
    simp only [processDataChunkLines] at ha
    cases hc : (convertDifyToOpenAIStreamFormat l conversationKey s).1 with
    | some c =>
      simp only [hc] at ha
      rcases List.mem_cons.mp ha with rfl | hmem
      · exact ⟨c, rfl⟩
      · exact ih _ a hmem
    | none =>
      simp only [hc] at ha
      exact ih _ a ha

theorem runRelay_data_writes (chunks : List String) (conversationKey : String) (s : Store) :
    ∀ a ∈ (runRelay (chunks.map StreamEvt.dataChunk) conversationKey s).1,
      ∃ c, a = RelayAction.writeChunk c := by
  induction chunks generalizing s with
  | nil => intro a ha; cases ha
  | cons ch rest ih =>
    intro a ha
    simp only [List.map_cons, runRelay, onDataChunk] at ha
    rcases List.mem_append.mp ha with h | h
    · exact processDataChunkLines_writes _ _ _ a h
    · exact ih _ a h

theorem runRelay_error_append (chunks : List String) (conversationKey : String) (s : Store) :
    runRelay (chunks.map StreamEvt.dataChunk ++ [StreamEvt.errorEvt]) conversationKey s =
      ((runRelay (chunks.map StreamEvt.dataChunk) conversationKey s).1 ++
        [RelayAction.writeRaw "data: [DONE]\n\n", RelayAction.endResponse],
       (runRelay (chunks.map StreamEvt.dataChunk) conversationKey s).2) := by
  induction chunks generalizing s with
  | nil => rfl
  | cons ch rest ih =>
    simp only [List.map_cons, List.cons_append, runRelay, List.append_eq, ih, List.append_assoc]

/-- C9: when the backend stream errors after any sequence of data frames,
the relay writes the terminal sentinel frame and ends the client response;
no action of the streaming path ever sets an HTTP status, so the backend
error is never converted into an HTTP error after streaming began. -/
theorem claim9_stream_error_graceful (chunks : List String) (conversationKey : String)
    (store : Store) :
    (runRelay (chunks.map StreamEvt.dataChunk ++ [StreamEvt.errorEvt]) conversationKey
        store).1 =
      (runRelay (chunks.map StreamEvt.dataChunk) conversationKey store).1 ++
        [RelayAction.writeRaw "data: [DONE]\n\n", RelayAction.endResponse]
    ∧ ∀ a ∈ (runRelay (chunks.map StreamEvt.dataChunk ++ [StreamEvt.errorEvt])
        conversationKey store).1, ∀ n, a ≠ RelayAction.setStatus n := by
  constructor
  · rw [runRelay_error_append]
  · intro a ha n
    rw [runRelay_error_append] at ha
    rcases List.mem_append.mp ha with h | h
    · obtain ⟨c, rfl⟩ := runRelay_data_writes chunks conversationKey store a h
      simp
    · rcases List.mem_cons.mp h with rfl | h2
      · simp
      · rcases List.mem_cons.mp h2 with rfl | h3
        · simp
        · cases h3

theorem claim9_witness :
    (runRelay (([] : List String).map StreamEvt.dataChunk ++ [StreamEvt.errorEvt]) "k" []).1 =
      (runRelay (([] : List String).map StreamEvt.dataChunk) "k" []).1 ++
        [RelayAction.writeRaw "data: [DONE]\n\n", RelayAction.endResponse]
    ∧ RelayAction.writeRaw "data: [DONE]\n\n" ≠ RelayAction.setStatus 0 :=
  ⟨(claim9_stream_error_graceful [] "k" []).1,
   (claim9_stream_error_graceful [] "k" []).2 (RelayAction.writeRaw "data: [DONE]\n\n")
     (by decide) 0⟩

theorem applyConversationId_store_all (c : Chunk) (data : JsonVal) (conversationKey : String)
    (s : Store) (hs : s.all (fun kv => kv.2 != "") = true) :
    ((applyConversationId c data conversationKey s).2).all (fun kv => kv.2 != "") = true := by
  unfold applyConversationId
  by_cases h : strTruthy (data.getStrField "conversation_id") = true
  · rw [if_pos h]
    cases hc : data.getStrField "conversation_id" with
    | none => rw [hc] at h; simp [strTruthy] at h
    | some s0 =>
      rw [hc] at h
      exact Store.all_set s conversationKey ((some s0).getD "") _ hs
        (by simpa [strTruthy] using h)
  · rw [if_neg h]
    exact hs

theorem handleParsedEvent_store_all (data : JsonVal) (conversationKey : String) (s : Store)
    (hs : s.all (fun kv => kv.2 != "") = true) :
    ((handleParsedEvent data conversationKey s).2).all (fun kv => kv.2 != "") = true := by
  unfold handleParsedEvent
  by_cases h1 : (data.getStrField "event" == some "message") = true
  · rw [if_pos h1]
    exact applyConversationId_store_all _ data conversationKey s hs
  · rw [if_neg h1]
    by_cases h2 : (data.getStrField "event" == some "message_end") = true
    · rw [if_pos h2]
      exact applyConversationId_store_all _ data conversationKey s hs
    · rw [if_neg h2]
      exact hs

theorem stream_translator_store_all (line conversationKey : String) (s : Store)
    (hs : s.all (fun kv => kv.2 != "") = true) :
    ((convertDifyToOpenAIStreamFormat line conversationKey s).2).all
      (fun kv => kv.2 != "") = true := by
  unfold convertDifyToOpenAIStreamFormat
  by_cases hc : (jsTrim (removeDataTag line) == "") = true
  · rw [if_pos hc]
    exact hs
  · rw [if_neg hc]
    cases hp : parseJson (fixJson (jsTrim (removeDataTag line))) with
    | none => simp only [hp]; exact hs
    | some data => simp only [hp]; exact handleParsedEvent_store_all data conversationKey s hs

theorem applyConversationId_store_unchanged (c : Chunk) (data : JsonVal)
    (conversationKey : String) (s : Store)
    (h : strTruthy (data.getStrField "conversation_id") = false) :
    (applyConversationId c data conversationKey s).2 = s := by
  unfold applyConversationId
  rw [if_neg (by simp [h])]

theorem blockingResponse_store_all (reply : DifyReply) (conversationKey : String) (s : Store)
    (hs : s.all (fun kv => kv.2 != "") = true) :
    ((blockingResponse reply conversationKey s).2).all (fun kv => kv.2 != "") = true := by
  simp only [blockingResponse]
  by_cases h : strTruthy reply.conversation_id = true
  · rw [if_pos h]
    cases hc : reply.conversation_id with
    | none => rw [hc] at h; simp [strTruthy] at h
    | some s0 =>
      rw [hc] at h
      exact Store.all_set s conversationKey ((some s0).getD "") _ hs
        (by simpa [strTruthy] using h)
  · rw [if_neg h]
    exact hs

theorem post_store_all (mf : MessagesField) (stream : Bool) (user : Option String)
    (backend : BackendResult) (store : Store)
    (hs : store.all (fun kv => kv.2 != "") = true) :
    ((postChatCompletions mf stream user backend store).2).all (fun kv => kv.2 != "") = true := by
  cases mf with
  | absent => exact hs
  | notArray => exact hs
  | arr messages =>
    cases hfind : List.find? (fun m => m.role == some "user") messages.reverse with
    | none =>
      simp only [postChatCompletions, convertOpenAIToDifyFormat, hfind]
      exact hs
    | some lu =>
      simp only [postChatCompletions, convertOpenAIToDifyFormat, hfind]
      cases backend with
      | axiosErr st dm em => exact hs
      | ok reply =>
        cases stream with
        | true => simpa using hs
        | false =>
          simp only [Bool.false_eq_true, if_false]
          exact blockingResponse_store_all reply _ store hs

/-- C10: the conversation registry is only written with truthy
backend-reported conversation ids: stream-event translation and the
endpoint (including its blocking branch) preserve the invariant that every
stored value is a non-empty string, and a parsed stream event or blocking
reply whose conversation_id is absent or empty leaves the store unchanged. -/
theorem claim10_registry_invariant (line conversationKey : String) (store : Store) :
    (store.all (fun kv => kv.2 != "") = true →
      ((convertDifyToOpenAIStreamFormat line conversationKey store).2).all
        (fun kv => kv.2 != "") = true)
    ∧ (∀ (mf : MessagesField) (stream : Bool) (user : Option String)
        (backend : BackendResult), store.all (fun kv => kv.2 != "") = true →
        ((postChatCompletions mf stream user backend store).2).all
          (fun kv => kv.2 != "") = true)
    ∧ (∀ data, parseJson (fixJson (jsTrim (removeDataTag line))) = some data →
        strTruthy (data.getStrField "conversation_id") = false →
        (convertDifyToOpenAIStreamFormat line conversationKey store).2 = store)
    ∧ (∀ (messages : List Msg) (stream : Bool) (user : Option String) (reply : DifyReply),
        strTruthy reply.conversation_id = false →
        (postChatCompletions (MessagesField.arr messages) stream user
          (BackendResult.ok reply) store).2 = store) := by
  refine ⟨stream_translator_store_all line conversationKey store,
    fun mf stream user backend hs => post_store_all mf stream user backend store hs, ?_, ?_⟩
  · intro data hp hcid
    unfold convertDifyToOpenAIStreamFormat
    by_cases hc : (jsTrim (removeDataTag line) == "") = true
    · rw [if_pos hc]
    · rw [if_neg hc]
      simp only [hp]
      unfold handleParsedEvent
      by_cases h1 : (data.getStrField "event" == some "message") = true
      · rw [if_pos h1]
        exact applyConversationId_store_unchanged _ data conversationKey store hcid
      · rw [if_neg h1]
        by_cases h2 : (data.getStrField "event" == some "message_end") = true
        · rw [if_pos h2]
          exact applyConversationId_store_unchanged _ data conversationKey store hcid
        · rw [if_neg h2]
  · intro messages stream user reply hcid
    cases hfind : List.find? (fun m => m.role == some "user") messages.reverse with
    | none => simp only [postChatCompletions, convertOpenAIToDifyFormat, hfind]
    | some lu =>
      simp only [postChatCompletions, convertOpenAIToDifyFormat, hfind]
      cases stream with
      | true => simp
      | false =>
        simp only [Bool.false_eq_true, if_false]
        simp only [blockingResponse]
        rw [if_neg (by simp [hcid])]

theorem claim10_witness :
    (((convertDifyToOpenAIStreamFormat contLine "k" [("a", "b")]).2).all
      (fun kv => kv.2 != "") = true)
    ∧ (((postChatCompletions (MessagesField.arr blockingMsgsExample) false none
        (BackendResult.ok blockingReplyExample) [("a", "b")]).2).all
      (fun kv => kv.2 != "") = true)
    ∧ (convertDifyToOpenAIStreamFormat pingLine "k" [("a", "b")]).2 = [("a", "b")]
    ∧ (postChatCompletions (MessagesField.arr blockingMsgsExample) false none
        (BackendResult.ok { answer := some "x" }) [("a", "b")]).2 = [("a", "b")] :=
  ⟨(claim10_registry_invariant contLine "k" [("a", "b")]).1 (by decide),
   (claim10_registry_invariant contLine "k" [("a", "b")]).2.1 (MessagesField.arr
     blockingMsgsExample) false none (BackendResult.ok blockingReplyExample) (by decide),
   (claim10_registry_invariant pingLine "k" [("a", "b")]).2.2.1 pingData rfl rfl,
   (claim10_registry_invariant contLine "k" [("a", "b")]).2.2.2 blockingMsgsExample false
     none { answer := some "x" } rfl⟩
